import Mathlib

/-!
Verification of the storyboard grid compositor from
`src/storyboard/storyboard_image_node.py`.

The compositor (`create_storyboard_grid`) and its helpers
(`_parse_output_size`, the background-color parsing block, the columns
normalisation) are embedded as executable Lean functions.  Machine
integers are modelled as `Int` (Python integers are unbounded), Python
float division inside the aspect-ratio fit is modelled exactly over `ℚ`,
and fallible operations (raising `ValueError` / `ZeroDivisionError`)
return `Except`.  PIL images are modelled by their width/height/mode;
canvas allocations and paste positions are recorded in the result
structure instead of pixel buffers.
-/

namespace Storyboard

/-- Hexadecimal value of an ASCII character, as accepted by Python
`int(_, 16)` after its decimal-and-space transform. -/
def hexVal? (c : Char) : Option Nat :=
  if '0' ≤ c ∧ c ≤ '9' then some (c.toNat - '0'.toNat)
  else if 'a' ≤ c ∧ c ≤ 'f' then some (c.toNat - 'a'.toNat + 10)
  else if 'A' ≤ c ∧ c ≤ 'F' then some (c.toNat - 'A'.toNat + 10)
  else none

/-- C-level `Py_ISSPACE`, used by `PyLong_FromString` to skip leading and
trailing whitespace: ASCII `\t\n\v\f\r` and space only. -/
def isPyAsciiSpace (c : Char) : Bool :=
  decide ((0x9 ≤ c.toNat ∧ c.toNat ≤ 0xD) ∨ c.toNat = 0x20)

/-- The non-ASCII characters `Py_UNICODE_ISSPACE` accepts: U+0085, U+00A0
and the Unicode space/line/paragraph separators. -/
def isPyUniSpace (c : Char) : Bool :=
  decide (c.toNat = 0x85 ∨ c.toNat = 0xA0 ∨ c.toNat = 0x1680 ∨
    (0x2000 ≤ c.toNat ∧ c.toNat ≤ 0x200A) ∨ c.toNat = 0x2028 ∨ c.toNat = 0x2029 ∨
    c.toNat = 0x202F ∨ c.toNat = 0x205F ∨ c.toNat = 0x3000)

/-- Base code points of the Unicode decimal-digit runs (category Nd, from
CPython's Unicode tables): each run spans `base .. base + 9` with digit
values 0-9. -/
def pyDigitBases : List Nat :=
  [0x30, 0x660, 0x6F0, 0x7C0, 0x966, 0x9E6, 0xA66, 0xAE6, 0xB66, 0xBE6,
   0xC66, 0xCE6, 0xD66, 0xDE6, 0xE50, 0xED0, 0xF20, 0x1040, 0x1090, 0x17E0,
   0x1810, 0x1946, 0x19D0, 0x1A80, 0x1A90, 0x1B50, 0x1BB0, 0x1C40, 0x1C50,
   0xA620, 0xA8D0, 0xA900, 0xA9D0, 0xA9F0, 0xAA50, 0xABF0, 0xFF10, 0x104A0,
   0x10D30, 0x11066, 0x110F0, 0x11136, 0x111D0, 0x112F0, 0x11450, 0x114D0,
   0x11650, 0x116C0, 0x11730, 0x118E0, 0x11950, 0x11C50, 0x11D50, 0x11DA0,
   0x16A60, 0x16AC0, 0x16B50, 0x1D7CE, 0x1D7D8, 0x1D7E2, 0x1D7EC, 0x1D7F6,
   0x1E140, 0x1E2F0, 0x1E950, 0x1FBF0]

/-- The Unicode decimal-digit value of a character, when it has one. -/
def pyToDecimal? (c : Char) : Option Nat :=
  (pyDigitBases.find? (fun b => decide (b ≤ c.toNat ∧ c.toNat ≤ b + 9))).map
    (fun b => c.toNat - b)

/-- CPython's `_PyUnicode_TransformDecimalAndSpaceToASCII`, applied by
`int(s, 16)` before parsing: ASCII characters pass through unchanged; a
non-ASCII character becomes its ASCII decimal digit when it has a decimal
value, an ASCII space when it is Unicode whitespace, and is otherwise left
for the parser to reject. -/
def pyTransform (c : Char) : Char :=
  if c.toNat < 128 then c
  else
    match pyToDecimal? c with
    | some d => Char.ofNat ('0'.toNat + d)
    | none => if isPyUniSpace c then ' ' else c

/-- Strip leading and trailing whitespace, as `PyLong_FromString` does
after the transform. -/
def pyStrip (l : List Char) : List Char :=
  ((l.dropWhile isPyAsciiSpace).reverse.dropWhile isPyAsciiSpace).reverse

/-- Digit loop of Python `int(_, 16)`: hex digits with single underscores
allowed between digits. The accumulator already holds the leading digits. -/
def hexLoop : List Char → Nat → Option Nat
  | [], acc => some acc
  | c :: rest, acc =>
    match hexVal? c with
    | some d => hexLoop rest (acc * 16 + d)
    | none =>
      if c = '_' then
        match rest with
        | r :: _ => if (hexVal? r).isSome then hexLoop rest acc else none
        | [] => none
      else none

/-- A nonempty run of hex digits (with `_` separators); must start with a digit. -/
def pyHexDigits (l : List Char) : Option Nat :=
  match l with
  | c :: rest =>
    match hexVal? c with
    | some d => hexLoop rest d
    | none => none
  | [] => none

/-- After an optional `0x`/`0X`, one underscore may precede the first digit. -/
def pyHexAfterPfx (r : List Char) : Option Nat :=
  match r with
  | '_' :: rest => pyHexDigits rest
  | _ => pyHexDigits r

/-- Body of Python `int(_, 16)` after the optional sign: optional `0x`/`0X`
followed by hex digits. -/
def pyHexAfterSign (l : List Char) : Option Nat :=
  match l with
  | '0' :: 'x' :: r => pyHexAfterPfx r
  | '0' :: 'X' :: r => pyHexAfterPfx r
  | _ => pyHexDigits l

/-- Python `int(s, 16)` on a character list: the decimal-and-space
transform, then optional surrounding whitespace, optional sign, optional
`0x`/`0X`, hex digits with `_` separators.  `none` models the
`ValueError` that the source catches. -/
def pyIntHex? (l : List Char) : Option Int :=
  match pyStrip (l.map pyTransform) with
  | '+' :: r => (pyHexAfterSign r).map (fun n => (n : Int))
  | '-' :: r => (pyHexAfterSign r).map (fun n => -(n : Int))
  | t => (pyHexAfterSign t).map (fun n => (n : Int))

/-- Python slice `l[a:b]` (for `0 ≤ a ≤ b`). -/
def pySlice (l : List Char) (a b : Nat) : List Char :=
  (l.drop a).take (b - a)

/-- The background-color parsing block of `create_storyboard_grid`
(lines 200-212), on the character list of the string: if the string starts
with `#` (`bg_color.startswith('#')`), parse `s[1:3]`, `s[3:5]`, `s[5:7]`
as hex; any failure (caught exception) or a missing `#` yields opaque
black. -/
def parse_bg_color_list (cs : List Char) : Int × Int × Int :=
  if cs.head? = some '#' then
    match pyIntHex? (pySlice cs 1 3),
          pyIntHex? (pySlice cs 3 5),
          pyIntHex? (pySlice cs 5 7) with
    | some r, some g, some b => (r, g, b)
    | _, _, _ => (0, 0, 0)
  else (0, 0, 0)

/-- Background-color parsing on the string itself. -/
def parse_bg_color (bg_color : String) : Int × Int × Int :=
  parse_bg_color_list bg_color.data

/-- `_parse_output_size` (lines 347-358): dictionary lookup returning
`None` for unknown keys.  Note the dictionary has no key
`"1080p (1920x1080)"`. -/
def parse_output_size (output_size : String) : Option (Int × Int) :=
  if output_size = "4k (3840x2160)" then some (3840, 2160)
  else if output_size = "1920x1080" then some (1920, 1080)
  else if output_size = "1440p (2560x1440)" then some (2560, 1440)
  else if output_size = "720p (1280x720)" then some (1280, 720)
  else none

/-- `process` line 160: `self._parse_output_size(output_image_size) or (1920, 1080)`. -/
def resolve_output_size (output_size : String) : Int × Int :=
  (parse_output_size output_size).getD (1920, 1080)

/-- Columns normalisation (lines 214-216):
`if not isinstance(columns, int) or columns < 1: columns = 3`.
A non-integer Python value is modelled as `none`. -/
def columnsNorm : Option Int → Int
  | none => 3
  | some c => if c < 1 then 3 else c

/-- `rows = (num_images + columns - 1) // columns` (ceiling division,
lines 220 and 228). -/
def rows_needed (num_images columns : Int) : Int :=
  (num_images + columns - 1).fdiv columns

/-- `available_width = (target_width - (columns + 1) * padding) // columns`
(line 227). -/
def available_width (target_width columns padding : Int) : Int :=
  (target_width - (columns + 1) * padding).fdiv columns

/-- `available_height = (target_height - (max_rows + 1) * padding) // max_rows`
(line 229). -/
def available_height (target_height max_rows padding : Int) : Int :=
  (target_height - (max_rows + 1) * padding).fdiv max_rows

/-- An input PIL image, of which `create_storyboard_grid` only reads
`img.size` (always nonnegative in PIL) and the pixel mode. -/
structure SrcImage where
  width : Nat
  height : Nat
  mode : String := "RGB"
deriving DecidableEq, Repr

/-- A Python exception raised by the compositor or by PIL. -/
inductive PyErr where
  | valueError (msg : String)
  | zeroDivisionError
deriving DecidableEq, Repr

/-- The aspect-preserving fit (lines 232-250 of the source):

```
aspect_ratio = img_width / img_height          -- ZeroDivisionError if h = 0
if aspect_ratio > 1:
    new_width = available_width
    new_height = int(new_width / aspect_ratio)
    if new_height > available_height:
        new_height = available_height
        new_width = int(new_height * aspect_ratio)
else:
    new_height = available_height
    new_width = int(new_height * aspect_ratio)
    if new_width > available_width:
        new_width = available_width
        new_height = int(new_width / aspect_ratio)  -- ZeroDivisionError if w = 0
```

Python's float arithmetic on the dimensions is modelled as exact rational
arithmetic: `aspect_ratio > 1` is `height < width` (height is positive
here), `int(x / aspect_ratio)` is `(x * height).tdiv width` and
`int(x * aspect_ratio)` is `(x * width).tdiv height`, `Int.tdiv` being the
truncation toward zero performed by Python `int()`. -/
def fitImage (img : SrcImage) (aw ah : Int) : Except PyErr (Int × Int) :=
  if img.height = 0 then .error .zeroDivisionError
  else if img.height < img.width then
    let nh := (aw * (img.height : Int)).tdiv (img.width : Int)
    if ah < nh then .ok ((ah * (img.width : Int)).tdiv (img.height : Int), ah)
    else .ok (aw, nh)
  else
    let nw := (ah * (img.width : Int)).tdiv (img.height : Int)
    if aw < nw then
      if img.width = 0 then .error .zeroDivisionError
      else .ok (aw, (aw * (img.height : Int)).tdiv (img.width : Int))
    else .ok (nw, ah)

/-- `img.resize((new_width, new_height), Image.LANCZOS)` (line 251): PIL's
resampling raises `ValueError` unless both target dimensions are ≥ 1;
otherwise the resized image has exactly the requested size. -/
def pilResize (nw nh : Int) : Except PyErr (Int × Int) :=
  if nw < 1 ∨ nh < 1 then .error (.valueError "height and width must be > 0")
  else .ok (nw, nh)

/-- One iteration of the resize loop: fit, then resize. -/
def fitResize (aw ah : Int) (img : SrcImage) : Except PyErr (Int × Int) :=
  match fitImage img aw ah with
  | .error e => .error e
  | .ok (nw, nh) => pilResize nw nh

/-- The `for img in images:` resize loop (lines 233-252): the first raised
exception aborts the whole call. -/
def mapResize (aw ah : Int) : List SrcImage → Except PyErr (List (Int × Int))
  | [] => .ok []
  | img :: rest =>
    match fitResize aw ah img with
    | .error e => .error e
    | .ok size =>
      match mapResize aw ah rest with
      | .error e => .error e
      | .ok tail => .ok (size :: tail)

/-- `Image.new('RGB', (w, h), color)` (lines 255 and 266) raises
`ValueError` for negative dimensions (zero is allowed). -/
def pilNew (w h : Int) : Except PyErr Unit :=
  if w < 0 ∨ h < 0 then .error (.valueError "Width and height must be >= 0")
  else .ok ()

/-- `last_row_items = num_images % columns`, treated as `columns` when the
remainder is zero (lines 270-272). -/
def last_row_items (num_images columns : Int) : Int :=
  if num_images.fmod columns = 0 then columns else num_images.fmod columns

/-- Normal grid x-position `col * (base_width + padding) + padding`
(lines 283 and 286). -/
def default_x (col base_width padding : Int) : Int :=
  col * (base_width + padding) + padding

/-- Last-row centering offset
`(columns - last_row_items) * (base_width + padding) // 2` (line 282). -/
def center_offset (columns lri base_width padding : Int) : Int :=
  ((columns - lri) * (base_width + padding)).fdiv 2

/-- Paste position of the image at (0-based) index `idx` in the placement
loop (lines 275-288). -/
def placement (columns rows lri base_width base_height padding : Int)
    (idx : Nat) : Int × Int :=
  let row := (idx : Int).fdiv columns
  let col := (idx : Int).fmod columns
  let x := if row = rows - 1 ∧ lri < columns then
      default_x col base_width padding + center_offset columns lri base_width padding
    else default_x col base_width padding
  (x, row * (base_height + padding) + padding)

/-- `grid_width = columns * base_width + (columns + 1) * padding` (line 262). -/
def grid_width (columns base_width padding : Int) : Int :=
  columns * base_width + (columns + 1) * padding

/-- `grid_height = rows * base_height + (rows + 1) * padding` (line 263). -/
def grid_height (rows base_height padding : Int) : Int :=
  rows * base_height + (rows + 1) * padding

/-- `(base_width, base_height)`: size of the first resized image, falling
back to the available cell size for an empty list (lines 258-259). -/
def base_size (resized : List (Int × Int)) (aw ah : Int) : Int × Int :=
  resized.headD (aw, ah)

/-- Everything `create_storyboard_grid` computes and draws, recorded in one
structure in place of the two pixel buffers: the final canvas (mode, size,
fill), the grid buffer (mode, size, fill), the per-image resized sizes and
paste positions, and the centering paste offset of the grid on the canvas. -/
structure GridResult where
  bg : Int × Int × Int
  columnsUsed : Int
  rows : Int
  available_w : Int
  available_h : Int
  resized : List (Int × Int)
  final_mode : String
  final_width : Int
  final_height : Int
  final_fill : Int × Int × Int
  base_w : Int
  base_h : Int
  grid_mode : String
  grid_w : Int
  grid_h : Int
  grid_fill : Int × Int × Int
  placements : List (Int × Int)
  paste_x : Int
  paste_y : Int
deriving DecidableEq, Repr

/-- The straight-line tail of `create_storyboard_grid` (lines 254-296),
assembled once the resize loop has succeeded; `c` is the columns value
after the line-216 normalisation rebinding. -/
def buildResult (num_images : Nat) (bg_color : String) (c : Int)
    (padding : Int) (target_size : Int × Int) (resized : List (Int × Int)) :
    GridResult :=
  let bg := parse_bg_color bg_color
  let n : Int := (num_images : Int)
  let rows := rows_needed n c
  let aw := available_width target_size.1 c padding
  let ah := available_height target_size.2 (rows_needed n c) padding
  let bw := (base_size resized aw ah).1
  let bh := (base_size resized aw ah).2
  let gw := grid_width c bw padding
  let gh := grid_height rows bh padding
  { bg := bg
    columnsUsed := c
    rows := rows
    available_w := aw
    available_h := ah
    resized := resized
    final_mode := "RGB"
    final_width := target_size.1
    final_height := target_size.2
    final_fill := bg
    base_w := bw
    base_h := bh
    grid_mode := "RGB"
    grid_w := gw
    grid_h := gh
    grid_fill := bg
    placements := (List.range resized.length).map
      (placement c rows (last_row_items n c) bw bh padding)
    paste_x := max 0 ((target_size.1 - gw).fdiv 2)
    paste_y := max 0 ((target_size.2 - gh).fdiv 2) }

/-- `create_storyboard_grid` (lines 195-296).  Raises (`Except.error`) the
`ValueError` of line 198 on an empty list, any exception of the resize
loop, and any `ValueError` of the two `Image.new` calls; otherwise returns
the record of everything it drew. -/
def create_storyboard_grid (images : List SrcImage) (bg_color : String)
    (columns0 : Option Int) (padding : Int) (target_size : Int × Int) :
    Except PyErr GridResult :=
  if images.isEmpty then .error (.valueError "No images provided")
  else
    match mapResize
        (available_width target_size.1 (columnsNorm columns0) padding)
        (available_height target_size.2
          (rows_needed (images.length : Int) (columnsNorm columns0)) padding)
        images with
    | .error e => .error e
    | .ok resized =>
      match pilNew target_size.1 target_size.2 with
      | .error e => .error e
      | .ok _ =>
        match pilNew
            (grid_width (columnsNorm columns0)
              (base_size resized
                (available_width target_size.1 (columnsNorm columns0) padding)
                (available_height target_size.2
                  (rows_needed (images.length : Int) (columnsNorm columns0)) padding)).1
              padding)
            (grid_height (rows_needed (images.length : Int) (columnsNorm columns0))
              (base_size resized
                (available_width target_size.1 (columnsNorm columns0) padding)
                (available_height target_size.2
                  (rows_needed (images.length : Int) (columnsNorm columns0)) padding)).2
              padding) with
        | .error e => .error e
        | .ok _ =>
          .ok (buildResult images.length bg_color (columnsNorm columns0) padding target_size resized)

/-! ### Helper lemmas -/

/-- Truncating division of a nonnegative value by a positive value is the
floor of the exact quotient: `d * b ≤ a < (d + 1) * b`. -/
theorem tdiv_bounds {a b : Int} (ha : 0 ≤ a) (hb : 0 < b) :
    a.tdiv b * b ≤ a ∧ a < (a.tdiv b + 1) * b := by
  rw [Int.tdiv_eq_ediv ha hb.le]
  exact ⟨Int.ediv_mul_le a hb.ne', Int.lt_ediv_add_one_mul_self a hb⟩

/-- Truncating division of a nonpositive value by a nonnegative value is
nonpositive. -/
theorem tdiv_nonpos_of_nonpos {a b : Int} (ha : a ≤ 0) (hb : 0 ≤ b) :
    a.tdiv b ≤ 0 := by
  have h := Int.tdiv_nonneg (a := -a) (b := b) (by omega) hb
  rw [Int.neg_tdiv] at h
  omega

/-- The normalised columns value is always at least 1. -/
theorem columnsNorm_pos (columns0 : Option Int) : 1 ≤ columnsNorm columns0 := by
  cases columns0 with
  | none => simp [columnsNorm]
  | some c =>
    simp only [columnsNorm]
    split <;> omega

/-- For a nonempty image list and positive columns, the ceiling division
yields at least one row. -/
theorem rows_needed_pos {n c : Int} (hn : 1 ≤ n) (hc : 1 ≤ c) :
    1 ≤ rows_needed n c := by
  rw [rows_needed, Int.fdiv_eq_ediv _ (by omega), Int.le_ediv_iff_mul_le (by omega)]
  omega

/-- The resize loop preserves the number of images. -/
theorem mapResize_ok_length {aw ah : Int} {l : List SrcImage}
    {res : List (Int × Int)} (h : mapResize aw ah l = .ok res) :
    res.length = l.length := by
  induction l generalizing res with
  | nil =>
    simp only [mapResize] at h
    cases h
    rfl
  | cons img rest ih =>
    simp only [mapResize] at h
    split at h
    · cases h
    · split at h
      · cases h
      · cases h
        simpa using ih (by assumption)

/-- Inversion of a normally-returning `create_storyboard_grid` call: the
image list was nonempty, the resize loop succeeded, and the result is the
record assembled by `buildResult`. -/
theorem create_ok_inv {images : List SrcImage} {bg_color : String}
    {columns0 : Option Int} {padding : Int} {target_size : Int × Int}
    {r : GridResult}
    (h : create_storyboard_grid images bg_color columns0 padding target_size = .ok r) :
    ∃ resized,
      mapResize (available_width target_size.1 (columnsNorm columns0) padding)
        (available_height target_size.2
          (rows_needed (images.length : Int) (columnsNorm columns0)) padding)
        images = .ok resized ∧
      images ≠ [] ∧
      r = buildResult images.length bg_color (columnsNorm columns0) padding
            target_size resized := by
  rw [create_storyboard_grid] at h
  split at h
  · cases h
  · rename_i hne
    split at h
    · cases h
    · rename_i resized hres
      split at h
      · cases h
      · split at h
        · cases h
        · cases h
          exact ⟨resized, hres, by
            intro he
            subst he
            simp at hne, rfl⟩

/-- A resize to a degenerate (non-positive) dimension raises. -/
theorem pilResize_err {nw nh : Int} (h : nw < 1 ∨ nh < 1) :
    pilResize nw nh = .error (.valueError "height and width must be > 0") := by
  rw [pilResize, if_pos h]

/-- A resize to positive dimensions succeeds. -/
theorem pilResize_ok {nw nh : Int} (h1 : 1 ≤ nw) (h2 : 1 ≤ nh) :
    pilResize nw nh = .ok (nw, nh) := by
  rw [pilResize, if_neg (by omega)]

/-- In the aspect-preserving fit, positive availables and positive image
dimensions produce a size within the availables whose cross products with
the original dimensions differ by less than one pixel of rounding. -/
theorem fit_pos_spec {img : SrcImage} {aw ah : Int}
    (hw : 0 < img.width) (hh : 0 < img.height) (haw : 0 < aw) (hah : 0 < ah) :
    ∃ nw nh,
      fitImage img aw ah = .ok (nw, nh) ∧ nw ≤ aw ∧ nh ≤ ah ∧
      ((0 ≤ nw * (img.height : Int) - nh * (img.width : Int) ∧
          nw * (img.height : Int) - nh * (img.width : Int) < (img.width : Int)) ∨
       (0 ≤ nh * (img.width : Int) - nw * (img.height : Int) ∧
          nh * (img.width : Int) - nw * (img.height : Int) < (img.height : Int))) := by
  have hw' : (0 : Int) < (img.width : Int) := by exact_mod_cast hw
  have hh' : (0 : Int) < (img.height : Int) := by exact_mod_cast hh
  simp only [fitImage]
  rw [if_neg hh.ne']
  by_cases hcmp : img.height < img.width
  · rw [if_pos hcmp]
    have hb := tdiv_bounds (a := aw * (img.height : Int)) (b := (img.width : Int))
      (mul_nonneg haw.le hh'.le) hw'
    by_cases hclamp : ah < (aw * (img.height : Int)).tdiv (img.width : Int)
    · rw [if_pos hclamp]
      have gb := tdiv_bounds (a := ah * (img.width : Int)) (b := (img.height : Int))
        (mul_nonneg hah.le hw'.le) hh'
      refine ⟨_, ah, rfl, ?_, le_refl ah, Or.inr ⟨by linarith [gb.1], by nlinarith [gb.2]⟩⟩
      have h1 : (ah + 1) * (img.width : Int) ≤
          (aw * (img.height : Int)).tdiv (img.width : Int) * (img.width : Int) :=
        mul_le_mul_of_nonneg_right (by omega) hw'.le
      have h2 : ah * (img.width : Int) < aw * (img.height : Int) := by nlinarith [hb.1]
      have h3 : (ah * (img.width : Int)).tdiv (img.height : Int) * (img.height : Int) <
          aw * (img.height : Int) := lt_of_le_of_lt gb.1 h2
      exact le_of_lt (lt_of_mul_lt_mul_right h3 hh'.le)
    · rw [if_neg hclamp]
      exact ⟨aw, _, rfl, le_refl aw, by omega,
        Or.inl ⟨by linarith [hb.1], by nlinarith [hb.2]⟩⟩
  · rw [if_neg hcmp]
    have gb := tdiv_bounds (a := ah * (img.width : Int)) (b := (img.height : Int))
      (mul_nonneg hah.le hw'.le) hh'
    by_cases hclamp : aw < (ah * (img.width : Int)).tdiv (img.height : Int)
    · rw [if_pos hclamp, if_neg hw.ne']
      have hb := tdiv_bounds (a := aw * (img.height : Int)) (b := (img.width : Int))
        (mul_nonneg haw.le hh'.le) hw'
      refine ⟨aw, _, rfl, le_refl aw, ?_,
        Or.inl ⟨by linarith [hb.1], by nlinarith [hb.2]⟩⟩
      have h1 : (aw + 1) * (img.height : Int) ≤
          (ah * (img.width : Int)).tdiv (img.height : Int) * (img.height : Int) :=
        mul_le_mul_of_nonneg_right (by omega) hh'.le
      have h2 : aw * (img.height : Int) < ah * (img.width : Int) := by nlinarith [gb.1]
      have h3 : (aw * (img.height : Int)).tdiv (img.width : Int) * (img.width : Int) <
          ah * (img.width : Int) := lt_of_le_of_lt hb.1 h2
      exact le_of_lt (lt_of_mul_lt_mul_right h3 hw'.le)
    · rw [if_neg hclamp]
      exact ⟨_, ah, rfl, by omega, le_refl ah,
        Or.inr ⟨by linarith [gb.1], by nlinarith [gb.2]⟩⟩

/-- With a positive-size image but a non-positive available cell dimension,
the fit silently clamps to a degenerate size. -/
theorem fit_degenerate {img : SrcImage} {aw ah : Int}
    (hw : 0 < img.width) (hh : 0 < img.height) (hdeg : aw ≤ 0 ∨ ah ≤ 0) :
    ∃ nw nh, fitImage img aw ah = .ok (nw, nh) ∧ (nw < 1 ∨ nh < 1) := by
  have hw' : (0 : Int) < (img.width : Int) := by exact_mod_cast hw
  have hh' : (0 : Int) < (img.height : Int) := by exact_mod_cast hh
  simp only [fitImage]
  rw [if_neg hh.ne']
  by_cases hcmp : img.height < img.width
  · rw [if_pos hcmp]
    by_cases hclamp : ah < (aw * (img.height : Int)).tdiv (img.width : Int)
    · rw [if_pos hclamp]
      refine ⟨_, ah, rfl, Or.inr ?_⟩
      rcases hdeg with hdeg | hdeg
      · have := tdiv_nonpos_of_nonpos (a := aw * (img.height : Int))
          (b := (img.width : Int)) (mul_nonpos_of_nonpos_of_nonneg hdeg hh'.le) hw'.le
        omega
      · omega
    · rw [if_neg hclamp]
      refine ⟨aw, _, rfl, ?_⟩
      rcases hdeg with hdeg | hdeg
      · exact Or.inl (by omega)
      · exact Or.inr (by omega)
  · rw [if_neg hcmp]
    by_cases hclamp : aw < (ah * (img.width : Int)).tdiv (img.height : Int)
    · rw [if_pos hclamp, if_neg hw.ne']
      refine ⟨aw, _, rfl, Or.inl ?_⟩
      rcases hdeg with hdeg | hdeg
      · omega
      · have := tdiv_nonpos_of_nonpos (a := ah * (img.width : Int))
          (b := (img.height : Int)) (mul_nonpos_of_nonpos_of_nonneg hdeg hw'.le) hh'.le
        omega
    · rw [if_neg hclamp]
      refine ⟨_, ah, rfl, ?_⟩
      rcases hdeg with hdeg | hdeg
      · exact Or.inl (by omega)
      · exact Or.inr (by omega)

/-- With a positive-size image and a degenerate available dimension, the
resize step raises PIL's `ValueError`. -/
theorem fitResize_degenerate {img : SrcImage} {aw ah : Int}
    (hw : 0 < img.width) (hh : 0 < img.height) (hdeg : aw ≤ 0 ∨ ah ≤ 0) :
    fitResize aw ah img = .error (.valueError "height and width must be > 0") := by
  obtain ⟨nw, nh, hfit, hdim⟩ := fit_degenerate hw hh hdeg
  rw [fitResize, hfit]
  exact pilResize_err hdim

/-! ### Claim theorems -/

/-- C1: for every call to `create_storyboard_grid` that returns normally,
the returned final canvas has width and height exactly equal to the
supplied target size, regardless of the images, their sizes, the columns
value or the padding value. -/
theorem c1_canvas_size_invariant {images : List SrcImage} {bg_color : String}
    {columns0 : Option Int} {padding : Int} {target_size : Int × Int}
    {r : GridResult}
    (h : create_storyboard_grid images bg_color columns0 padding target_size = .ok r) :
    r.final_width = target_size.1 ∧ r.final_height = target_size.2 := by
  obtain ⟨resized, -, -, rfl⟩ := create_ok_inv h
  exact ⟨rfl, rfl⟩

/-- C1 witness: a concrete normally-returning call at target 1920×1080. -/
theorem c1_canvas_size_invariant_witness :
    (buildResult 1 "#000000" 3 10 (1920, 1080) [(626, 626)]).final_width = 1920 ∧
    (buildResult 1 "#000000" 3 10 (1920, 1080) [(626, 626)]).final_height = 1080 :=
  c1_canvas_size_invariant
    (show create_storyboard_grid [⟨100, 100, "RGB"⟩] "#000000" (some 3) 10 (1920, 1080)
       = .ok (buildResult 1 "#000000" 3 10 (1920, 1080) [(626, 626)]) from rfl)

/-- C2: an empty image list makes `create_storyboard_grid` raise the
line-198 `ValueError` immediately; no canvas is produced. -/
theorem c2_empty_input_raises (bg_color : String) (columns0 : Option Int)
    (padding : Int) (target_size : Int × Int) :
    create_storyboard_grid [] bg_color columns0 padding target_size =
      .error (.valueError "No images provided") := rfl

/-- C8: a `columns` value that is not an integer (`none`) or is an integer
below 1 makes the call behave exactly as if `columns = 3` had been
supplied; in particular no error is raised because of such a value. -/
theorem c8_columns_default {images : List SrcImage} {bg_color : String}
    {padding : Int} {target_size : Int × Int} {columns0 : Option Int}
    (hc : columns0 = none ∨ ∃ k, columns0 = some k ∧ k < 1) :
    create_storyboard_grid images bg_color columns0 padding target_size =
      create_storyboard_grid images bg_color (some 3) padding target_size := by
  have hnorm : columnsNorm columns0 = columnsNorm (some 3) := by
    rcases hc with rfl | ⟨k, rfl, hk⟩
    · rfl
    · simp [columnsNorm, if_pos hk]
  rw [create_storyboard_grid, create_storyboard_grid, hnorm]

/-- C8 witness: `columns = 0` behaves as `columns = 3` on a concrete call. -/
theorem c8_columns_default_witness :
    ((some (0 : Int)) = none ∨ ∃ k, (some (0 : Int)) = some k ∧ k < 1) ∧
    create_storyboard_grid [⟨100, 100, "RGB"⟩] "#000000" (some 0) 10 (1920, 1080) =
      create_storyboard_grid [⟨100, 100, "RGB"⟩] "#000000" (some 3) 10 (1920, 1080) :=
  ⟨Or.inr ⟨0, rfl, by decide⟩, c8_columns_default (Or.inr ⟨0, rfl, by decide⟩)⟩

/-- C9: the size selector resolves through the fixed lookup with fallback
`(1920, 1080)`: the four dictionary keys map to their resolutions,
`"1080p (1920x1080)"` resolves to `(1920, 1080)` (via the fallback — it is
not a dictionary key), and every string that is none of the dictionary
keys resolves to `(1920, 1080)`. -/
theorem c9_size_selector_resolution :
    resolve_output_size "4k (3840x2160)" = (3840, 2160) ∧
    resolve_output_size "1440p (2560x1440)" = (2560, 1440) ∧
    resolve_output_size "1080p (1920x1080)" = (1920, 1080) ∧
    resolve_output_size "1920x1080" = (1920, 1080) ∧
    resolve_output_size "720p (1280x720)" = (1280, 720) ∧
    ∀ s : String, s ≠ "4k (3840x2160)" → s ≠ "1920x1080" →
      s ≠ "1440p (2560x1440)" → s ≠ "720p (1280x720)" →
      resolve_output_size s = (1920, 1080) := by
  refine ⟨rfl, rfl, rfl, rfl, rfl, ?_⟩
  intro s h1 h2 h3 h4
  rw [resolve_output_size, parse_output_size,
    if_neg h1, if_neg h2, if_neg h3, if_neg h4]
  rfl

/-- C9 witness: an unknown selector string resolves to the default. -/
theorem c9_size_selector_resolution_witness :
    ("unknown size" : String) ≠ "4k (3840x2160)" ∧
    resolve_output_size "unknown size" = (1920, 1080) :=
  ⟨by decide, c9_size_selector_resolution.2.2.2.2.2 "unknown size"
    (by decide) (by decide) (by decide) (by decide)⟩

/-- C10: every normally-returning call produces an RGB final canvas, and
the intermediate grid buffer is RGB as well, whatever the pixel modes of
the input images. -/
theorem c10_rgb_output {images : List SrcImage} {bg_color : String}
    {columns0 : Option Int} {padding : Int} {target_size : Int × Int}
    {r : GridResult}
    (h : create_storyboard_grid images bg_color columns0 padding target_size = .ok r) :
    r.final_mode = "RGB" ∧ r.grid_mode = "RGB" := by
  obtain ⟨resized, -, -, rfl⟩ := create_ok_inv h
  exact ⟨rfl, rfl⟩

/-- C10 witness: a concrete call with an RGBA and a grayscale input. -/
theorem c10_rgb_output_witness :
    (buildResult 2 "#ffffff" 3 10 (1920, 1080) [(626, 626), (626, 4)]).final_mode = "RGB" ∧
    (buildResult 2 "#ffffff" 3 10 (1920, 1080) [(626, 626), (626, 4)]).grid_mode = "RGB" :=
  c10_rgb_output
    (show create_storyboard_grid [⟨100, 100, "RGBA"⟩, ⟨3000, 20, "L"⟩] "#ffffff"
        (some 0) 10 (1920, 1080)
       = .ok (buildResult 2 "#ffffff" 3 10 (1920, 1080) [(626, 626), (626, 4)]) from rfl)

/-- If the string does not start with `#`, or any of the three hex slices
fails to parse, the parsed background color is opaque black. -/
theorem parse_bg_black {cs : List Char}
    (h : cs.head? ≠ some '#' ∨ pyIntHex? (pySlice cs 1 3) = none ∨
         pyIntHex? (pySlice cs 3 5) = none ∨ pyIntHex? (pySlice cs 5 7) = none) :
    parse_bg_color_list cs = (0, 0, 0) := by
  by_cases hc : cs.head? = some '#'
  · rw [parse_bg_color_list, if_pos hc]
    cases h1 : pyIntHex? (pySlice cs 1 3) <;>
      cases h2 : pyIntHex? (pySlice cs 3 5) <;>
      cases h3 : pyIntHex? (pySlice cs 5 7) <;>
      simp_all
  · rw [parse_bg_color_list, if_neg hc]

/-- C3 (amended): a background string that does not start with `#`, or for
which one of the character slices `[1:3]`, `[3:5]`, `[5:7]` fails to parse
as hex, is rendered as opaque black on both canvases; color parsing never
raises.  (Strings whose first seven characters look like `#RRGGBB` are
parsed from those slices even when the total length is not 7.) -/
theorem c3_color_fallback_amended {images : List SrcImage} {bg_color : String}
    {columns0 : Option Int} {padding : Int} {target_size : Int × Int}
    {r : GridResult}
    (hbg : bg_color.data.head? ≠ some '#' ∨
      pyIntHex? (pySlice bg_color.data 1 3) = none ∨
      pyIntHex? (pySlice bg_color.data 3 5) = none ∨
      pyIntHex? (pySlice bg_color.data 5 7) = none)
    (h : create_storyboard_grid images bg_color columns0 padding target_size = .ok r) :
    r.bg = (0, 0, 0) ∧ r.final_fill = (0, 0, 0) ∧ r.grid_fill = (0, 0, 0) := by
  obtain ⟨resized, -, -, rfl⟩ := create_ok_inv h
  have hp : parse_bg_color bg_color = (0, 0, 0) := parse_bg_black hbg
  exact ⟨by simp [buildResult, hp], by simp [buildResult, hp], by simp [buildResult, hp]⟩

/-- C3 witness: the spec example `"bad"` renders a black background. -/
theorem c3_color_fallback_amended_witness :
    (buildResult 1 "bad" 3 10 (1920, 1080) [(626, 626)]).bg = (0, 0, 0) ∧
    (buildResult 1 "bad" 3 10 (1920, 1080) [(626, 626)]).final_fill = (0, 0, 0) ∧
    (buildResult 1 "bad" 3 10 (1920, 1080) [(626, 626)]).grid_fill = (0, 0, 0) :=
  c3_color_fallback_amended (Or.inl (by decide))
    (show create_storyboard_grid [⟨100, 100, "RGB"⟩] "bad" (some 3) 10 (1920, 1080)
       = .ok (buildResult 1 "bad" 3 10 (1920, 1080) [(626, 626)]) from rfl)

/-- C3 counterexample: `"#aabbccdd"` is not a valid 7-character `#RRGGBB`
string (its length is 9), yet the background is rendered as
`(170, 187, 204)`, not black, because only the first seven characters are
inspected. -/
theorem c3_color_fallback_counterexample :
    ("#aabbccdd".length ≠ 7) ∧
    (create_storyboard_grid [⟨100, 100, "RGB"⟩] "#aabbccdd" (some 3) 10
        (1920, 1080)).map GridResult.final_fill = .ok (170, 187, 204) ∧
    ((170, 187, 204) : Int × Int × Int) ≠ (0, 0, 0) :=
  ⟨by decide, rfl, by decide⟩

/-- C4 (amended): with a non-positive available cell width or height, the
code does not raise any layout error of its own: the fit silently clamps
the cell size to the degenerate bound and the call fails inside PIL's
resize with its `ValueError` (for a first image of positive size); the
geometry divisions themselves never divide by zero, because the
normalised columns and the row count are always at least 1. -/
theorem c4_degenerate_geometry_amended {img : SrcImage} {rest : List SrcImage}
    {bg_color : String} {columns0 : Option Int} {padding : Int}
    {target_size : Int × Int}
    (hw : 0 < img.width) (hh : 0 < img.height)
    (hdeg : available_width target_size.1 (columnsNorm columns0) padding ≤ 0 ∨
      available_height target_size.2
        (rows_needed (((img :: rest).length : Nat) : Int) (columnsNorm columns0))
        padding ≤ 0) :
    create_storyboard_grid (img :: rest) bg_color columns0 padding target_size =
      .error (.valueError "height and width must be > 0") ∧
    1 ≤ columnsNorm columns0 ∧
    1 ≤ rows_needed (((img :: rest).length : Nat) : Int) (columnsNorm columns0) := by
  have hlen : 1 ≤ (img :: rest).length := by simp
  refine ⟨?_, columnsNorm_pos columns0,
    rows_needed_pos (by exact_mod_cast hlen) (columnsNorm_pos columns0)⟩
  rw [create_storyboard_grid, if_neg (by simp)]
  have hmr : mapResize
      (available_width target_size.1 (columnsNorm columns0) padding)
      (available_height target_size.2
        (rows_needed (((img :: rest).length : Nat) : Int) (columnsNorm columns0))
        padding)
      (img :: rest) = .error (.valueError "height and width must be > 0") := by
    simp only [mapResize]
    rw [fitResize_degenerate hw hh hdeg]
  rw [hmr]

/-- C4 witness for the amended claim: a 3×10 target with 4 columns gives a
zero available width, and the call fails with the resize `ValueError`. -/
theorem c4_degenerate_geometry_amended_witness :
    (0 < (5 : Nat)) ∧ (available_width 3 (columnsNorm (some 4)) 0 ≤ 0) ∧
    (create_storyboard_grid [⟨5, 5, "RGB"⟩] "#000000" (some 4) 0 (3, 10) =
        .error (.valueError "height and width must be > 0") ∧
      1 ≤ columnsNorm (some 4) ∧
      1 ≤ rows_needed ((([(⟨5, 5, "RGB"⟩ : SrcImage)] : List SrcImage).length : Nat) : Int)
            (columnsNorm (some 4))) :=
  ⟨by decide, by decide,
    c4_degenerate_geometry_amended (by decide) (by decide) (Or.inl (by decide))⟩

/-- C4 counterexample: at target 3×10 with 4 columns and no padding the
available width is 0 (degenerate geometry), yet no layout error is
raised: the fit silently clamps the 5×5 image to size (0, 0), and the
call fails only inside the resize library with its own `ValueError`. -/
theorem c4_degenerate_geometry_counterexample :
    available_width 3 (columnsNorm (some 4)) 0 = 0 ∧
    fitImage ⟨5, 5, "RGB"⟩ 0 10 = .ok (0, 0) ∧
    create_storyboard_grid [⟨5, 5, "RGB"⟩] "#000000" (some 4) 0 (3, 10) =
      .error (.valueError "height and width must be > 0") :=
  ⟨by decide, rfl, rfl⟩

/-- C5: for every image of positive size, when the available cell width
and height (computed by the source formulas from target size, normalised
columns, padding and the ceiling-division row count) are positive, the
fitted size stays within both availables and its cross products with the
original size differ by less than one pixel of integer rounding (so the
aspect ratio is preserved up to rounding). -/
theorem c5_aspect_preserving_fit {img : SrcImage} {target_w target_h padding n : Int}
    {columns0 : Option Int}
    (hw : 0 < img.width) (hh : 0 < img.height)
    (haw : 0 < available_width target_w (columnsNorm columns0) padding)
    (hah : 0 < available_height target_h (rows_needed n (columnsNorm columns0)) padding) :
    ∃ nw nh,
      fitImage img (available_width target_w (columnsNorm columns0) padding)
        (available_height target_h (rows_needed n (columnsNorm columns0)) padding)
        = .ok (nw, nh) ∧
      nw ≤ available_width target_w (columnsNorm columns0) padding ∧
      nh ≤ available_height target_h (rows_needed n (columnsNorm columns0)) padding ∧
      ((0 ≤ nw * (img.height : Int) - nh * (img.width : Int) ∧
          nw * (img.height : Int) - nh * (img.width : Int) < (img.width : Int)) ∨
       (0 ≤ nh * (img.width : Int) - nw * (img.height : Int) ∧
          nh * (img.width : Int) - nw * (img.height : Int) < (img.height : Int))) :=
  fit_pos_spec hw hh haw hah

/-- C5 witness: fitting a 100×100 image into the 1920×1080 geometry with 3
columns and padding 10. -/
theorem c5_aspect_preserving_fit_witness :
    (0 < available_width 1920 (columnsNorm (some 3)) 10) ∧
    (0 < available_height 1080 (rows_needed 1 (columnsNorm (some 3))) 10) ∧
    (∃ nw nh,
      fitImage ⟨100, 100, "RGB"⟩ (available_width 1920 (columnsNorm (some 3)) 10)
        (available_height 1080 (rows_needed 1 (columnsNorm (some 3))) 10)
        = .ok (nw, nh) ∧
      nw ≤ available_width 1920 (columnsNorm (some 3)) 10 ∧
      nh ≤ available_height 1080 (rows_needed 1 (columnsNorm (some 3))) 10 ∧
      ((0 ≤ nw * ((100 : Nat) : Int) - nh * ((100 : Nat) : Int) ∧
          nw * ((100 : Nat) : Int) - nh * ((100 : Nat) : Int) < ((100 : Nat) : Int)) ∨
       (0 ≤ nh * ((100 : Nat) : Int) - nw * ((100 : Nat) : Int) ∧
          nh * ((100 : Nat) : Int) - nw * ((100 : Nat) : Int) < ((100 : Nat) : Int)))) :=
  ⟨by decide, by decide,
    c5_aspect_preserving_fit (by decide) (by decide) (by decide) (by decide)⟩

/-- The paste position recorded for index `i` is the placement-loop
formula instantiated at the reference cell size. -/
theorem buildResult_placements_get {num_images : Nat} {bg_color : String}
    {c padding : Int} {target_size : Int × Int} {resized : List (Int × Int)}
    {i : Nat} (hi : i < resized.length) :
    (buildResult num_images bg_color c padding target_size resized).placements[i]? =
      some (placement c (rows_needed (num_images : Int) c)
        (last_row_items (num_images : Int) c)
        (base_size resized
          (available_width target_size.1 c padding)
          (available_height target_size.2 (rows_needed (num_images : Int) c) padding)).1
        (base_size resized
          (available_width target_size.1 c padding)
          (available_height target_size.2 (rows_needed (num_images : Int) c) padding)).2
        padding i) := by
  simp only [buildResult]
  rw [List.getElem?_map, List.getElem?_range hi]
  rfl

/-- C6: placement is row-major over a uniform reference cell equal to the
first resized image's size: in every normally-returning call, with
`bw × bh` the first resized size, the grid buffer measures exactly
`columns·bw + (columns+1)·padding` by `rows·bh + (rows+1)·padding`, is
filled with the parsed background color, holds one placement per input
image, and the image at index `i` sits at row `i div columns`,
column `i mod columns`, with `y = row·(bh+padding) + padding` always and
`x = col·(bw+padding) + padding` whenever the cell is not in a partial
final row. -/
theorem c6_row_major_uniform_grid {images : List SrcImage} {bg_color : String}
    {columns0 : Option Int} {padding : Int} {target_size : Int × Int}
    {r : GridResult}
    (h : create_storyboard_grid images bg_color columns0 padding target_size = .ok r) :
    ∃ bw bh,
      r.resized.head? = some (bw, bh) ∧
      r.grid_w = columnsNorm columns0 * bw + (columnsNorm columns0 + 1) * padding ∧
      r.grid_h = rows_needed (images.length : Int) (columnsNorm columns0) * bh +
        (rows_needed (images.length : Int) (columnsNorm columns0) + 1) * padding ∧
      r.grid_fill = parse_bg_color bg_color ∧
      r.placements.length = images.length ∧
      ∀ i : Nat, i < images.length → ∃ x y,
        r.placements[i]? = some (x, y) ∧
        y = ((i : Int).fdiv (columnsNorm columns0)) * (bh + padding) + padding ∧
        (¬((i : Int).fdiv (columnsNorm columns0) =
              rows_needed (images.length : Int) (columnsNorm columns0) - 1 ∧
            last_row_items (images.length : Int) (columnsNorm columns0) <
              columnsNorm columns0) →
          x = ((i : Int).fmod (columnsNorm columns0)) * (bw + padding) + padding) := by
  obtain ⟨resized, hres, hne, rfl⟩ := create_ok_inv h
  have hlen : resized.length = images.length := mapResize_ok_length hres
  have hpos : 0 < images.length := List.length_pos.mpr hne
  obtain ⟨⟨bw, bh⟩, tl, rfl⟩ : ∃ p tl, resized = p :: tl := by
    cases resized with
    | nil => simp at hlen; omega
    | cons p tl => exact ⟨p, tl, rfl⟩
  refine ⟨bw, bh, by simp [buildResult], by simp [buildResult, base_size, grid_width],
    by simp [buildResult, base_size, grid_height], by simp [buildResult],
    by simp [buildResult, hlen], ?_⟩
  intro i hi
  have hi' : i < ((bw, bh) :: tl).length := hlen ▸ hi
  rw [buildResult_placements_get hi']
  simp only [placement, base_size, List.headD]
  refine ⟨_, _, rfl, rfl, fun hnc => ?_⟩
  rw [if_neg hnc, default_x]

/-- C6 witness: the concrete 4-image call on a 340×230 target. -/
theorem c6_row_major_uniform_grid_witness :
    create_storyboard_grid
        [⟨100, 100, "RGB"⟩, ⟨100, 100, "RGB"⟩, ⟨100, 100, "RGB"⟩, ⟨100, 100, "RGB"⟩]
        "#000000" (some 3) 10 (340, 230)
      = .ok (buildResult 4 "#000000" 3 10 (340, 230)
          [(100, 100), (100, 100), (100, 100), (100, 100)]) ∧
    (∃ bw bh,
      (buildResult 4 "#000000" 3 10 (340, 230)
        [(100, 100), (100, 100), (100, 100), (100, 100)]).resized.head? = some (bw, bh) ∧
      (buildResult 4 "#000000" 3 10 (340, 230)
        [(100, 100), (100, 100), (100, 100), (100, 100)]).grid_w = 3 * bw + (3 + 1) * 10 ∧
      (buildResult 4 "#000000" 3 10 (340, 230)
        [(100, 100), (100, 100), (100, 100), (100, 100)]).grid_h =
          rows_needed 4 3 * bh + (rows_needed 4 3 + 1) * 10 ∧
      (buildResult 4 "#000000" 3 10 (340, 230)
        [(100, 100), (100, 100), (100, 100), (100, 100)]).grid_fill =
          parse_bg_color "#000000" ∧
      (buildResult 4 "#000000" 3 10 (340, 230)
        [(100, 100), (100, 100), (100, 100), (100, 100)]).placements.length = 4 ∧
      ∀ i : Nat, i < 4 → ∃ x y,
        (buildResult 4 "#000000" 3 10 (340, 230)
          [(100, 100), (100, 100), (100, 100), (100, 100)]).placements[i]? = some (x, y) ∧
        y = ((i : Int).fdiv 3) * (bh + 10) + 10 ∧
        (¬((i : Int).fdiv 3 = rows_needed 4 3 - 1 ∧ last_row_items 4 3 < 3) →
          x = ((i : Int).fmod 3) * (bw + 10) + 10)) :=
  ⟨rfl, c6_row_major_uniform_grid
    (show create_storyboard_grid
        [⟨100, 100, "RGB"⟩, ⟨100, 100, "RGB"⟩, ⟨100, 100, "RGB"⟩, ⟨100, 100, "RGB"⟩]
        "#000000" (some 3) 10 (340, 230)
      = .ok (buildResult 4 "#000000" 3 10 (340, 230)
          [(100, 100), (100, 100), (100, 100), (100, 100)]) from rfl)⟩

/-- C7: exactly the cells of a partial final row are shifted right from
their default x by `(columns − last_row_items)·(bw+padding) // 2`: every
placement equals the default position plus the offset when the cell lies
in the final row and that row is not full, plus nothing otherwise. -/
theorem c7_last_row_centering {images : List SrcImage} {bg_color : String}
    {columns0 : Option Int} {padding : Int} {target_size : Int × Int}
    {r : GridResult}
    (h : create_storyboard_grid images bg_color columns0 padding target_size = .ok r) :
    ∃ bw bh,
      r.resized.head? = some (bw, bh) ∧
      ∀ i : Nat, i < images.length →
        r.placements[i]? = some
          (((i : Int).fmod (columnsNorm columns0)) * (bw + padding) + padding +
            (if (i : Int).fdiv (columnsNorm columns0) =
                  rows_needed (images.length : Int) (columnsNorm columns0) - 1 ∧
                last_row_items (images.length : Int) (columnsNorm columns0) <
                  columnsNorm columns0
             then ((columnsNorm columns0 -
                    last_row_items (images.length : Int) (columnsNorm columns0)) *
                    (bw + padding)).fdiv 2
             else 0),
           ((i : Int).fdiv (columnsNorm columns0)) * (bh + padding) + padding) := by
  obtain ⟨resized, hres, hne, rfl⟩ := create_ok_inv h
  have hlen : resized.length = images.length := mapResize_ok_length hres
  have hpos : 0 < images.length := List.length_pos.mpr hne
  obtain ⟨⟨bw, bh⟩, tl, rfl⟩ : ∃ p tl, resized = p :: tl := by
    cases resized with
    | nil => simp at hlen; omega
    | cons p tl => exact ⟨p, tl, rfl⟩
  refine ⟨bw, bh, by simp [buildResult], ?_⟩
  intro i hi
  have hi' : i < ((bw, bh) :: tl).length := hlen ▸ hi
  rw [buildResult_placements_get hi']
  simp only [placement, base_size, List.headD, default_x, center_offset]
  by_cases hcond : (i : Int).fdiv (columnsNorm columns0) =
      rows_needed (images.length : Int) (columnsNorm columns0) - 1 ∧
      last_row_items (images.length : Int) (columnsNorm columns0) < columnsNorm columns0
  · rw [if_pos hcond, if_pos hcond]
  · rw [if_neg hcond, if_neg hcond, add_zero]

/-- C7 witness: the spec example — columns 3, padding 10, reference cell
100×100, one image alone in the last row sits at x = 120 (and the three
full-row cells keep their default positions). -/
theorem c7_last_row_centering_witness :
    create_storyboard_grid
        [⟨100, 100, "RGB"⟩, ⟨100, 100, "RGB"⟩, ⟨100, 100, "RGB"⟩, ⟨100, 100, "RGB"⟩]
        "#000000" (some 3) 10 (340, 230)
      = .ok (buildResult 4 "#000000" 3 10 (340, 230)
          [(100, 100), (100, 100), (100, 100), (100, 100)]) ∧
    (∃ bw bh,
      (buildResult 4 "#000000" 3 10 (340, 230)
        [(100, 100), (100, 100), (100, 100), (100, 100)]).resized.head? = some (bw, bh) ∧
      ∀ i : Nat, i < 4 →
        (buildResult 4 "#000000" 3 10 (340, 230)
          [(100, 100), (100, 100), (100, 100), (100, 100)]).placements[i]? = some
          (((i : Int).fmod 3) * (bw + 10) + 10 +
            (if (i : Int).fdiv 3 = rows_needed 4 3 - 1 ∧ last_row_items 4 3 < 3
             then ((3 - last_row_items 4 3) * (bw + 10)).fdiv 2
             else 0),
           ((i : Int).fdiv 3) * (bh + 10) + 10)) ∧
    (buildResult 4 "#000000" 3 10 (340, 230)
      [(100, 100), (100, 100), (100, 100), (100, 100)]).placements[3]? = some (120, 120) :=
  ⟨rfl, c7_last_row_centering
    (show create_storyboard_grid
        [⟨100, 100, "RGB"⟩, ⟨100, 100, "RGB"⟩, ⟨100, 100, "RGB"⟩, ⟨100, 100, "RGB"⟩]
        "#000000" (some 3) 10 (340, 230)
      = .ok (buildResult 4 "#000000" 3 10 (340, 230)
          [(100, 100), (100, 100), (100, 100), (100, 100)]) from rfl), rfl⟩

end Storyboard
